import Mathlib

/-!
Shallow embedding of `src/server.py` of the AI-Powered Deal Desk service:
request validation, content generation with static fallback, pricing tier
computation, and response assembly.  Numeric behaviour of the pricing code
(Python `int()` truncation, `round(x, 2)` banker's rounding) is modelled
with exact rational arithmetic.
-/

namespace DealDesk

/-- Urgency levels, mirroring `UrgencyLevel = Literal["low", "medium", "high"]`. -/
inductive Urgency where
  | low
  | medium
  | high
deriving DecidableEq, Repr

/-- The string rendering of an urgency value, as interpolated into the prompt. -/
def Urgency.render : Urgency → String
  | .low => "low"
  | .medium => "medium"
  | .high => "high"

/-- Python `int(x)` applied to a number: truncation toward zero. -/
def pyInt (q : ℚ) : ℚ := if 0 ≤ q then (⌊q⌋ : ℚ) else (⌈q⌉ : ℚ)

/-- Python `round(x)` with no digit argument: round half to even, to an integer. -/
def pyRound0 (q : ℚ) : ℚ :=
  if q - ⌊q⌋ < 1/2 then (⌊q⌋ : ℚ)
  else if 1/2 < q - ⌊q⌋ then (⌊q⌋ + 1 : ℤ)
  else if ⌊q⌋ % 2 = 0 then (⌊q⌋ : ℚ) else (⌊q⌋ + 1 : ℤ)

/-- Python `round(x, 2)`: round half to even at two decimal places. -/
def pyRound2 (q : ℚ) : ℚ := pyRound0 (q * 100) / 100

/-- A validated proposal request, mirroring the pydantic model `ProposalRequest`
(after validation has succeeded, so `urgency` is one of the three literals). -/
structure ProposalRequest where
  company_name : String
  industry : Option String
  pain_points : List String
  budget_range : Option String
  decision_makers : List String
  competitors : List String
  urgency : Urgency
deriving Repr

/-- A pricing tier, mirroring the pydantic model `PricingTier`. -/
structure PricingTier where
  name : String
  price : ℚ
  features : List String
  recommended : Bool
deriving Repr, DecidableEq

/-- The urgency multiplier: `multipliers = {"high": 1.2, "medium": 1.0, "low": 0.8}`,
looked up with default `1.0` (the default branch is unreachable for the
validated literal type). -/
def multiplier : Urgency → ℚ
  | .high => 6/5
  | .medium => 1
  | .low => 4/5

/-- Embedding of `generate_pricing_tiers` from `server.py`, with the environment-sourced
`BASE_PRICE` (`int(os.getenv("BASE_PRICE", "10000"))`) passed explicitly.
The code computes `base_price = int(base_price * multipliers.get(urgency, 1.0))`
and builds the three tiers from it. -/
def generate_pricing_tiers (basePrice : ℤ) (request : ProposalRequest) : List PricingTier :=
  let adjusted : ℚ := pyInt ((basePrice : ℚ) * multiplier request.urgency)
  [ { name := "Starter"
      price := pyRound2 (adjusted * (1/2))
      features := ["Core platform access", "Email support", "Up to 10 users",
                   "Standard integrations"]
      recommended := false },
    { name := "Professional"
      price := adjusted
      features := ["Everything in Starter", "Priority support", "Up to 50 users",
                   "Advanced analytics", "Custom integrations",
                   "Dedicated account manager"]
      recommended := true },
    { name := "Enterprise"
      price := pyRound2 (adjusted * 2)
      features := ["Everything in Professional", "Unlimited users",
                   "24/7 phone support", "Custom development", "SLA guarantees",
                   "Executive business reviews"]
      recommended := false } ]

/-- The Professional-tier price produced by `generate_pricing_tiers`
(the second tier of the returned list). -/
def professionalPrice (basePrice : ℤ) (request : ProposalRequest) : ℚ :=
  pyInt ((basePrice : ℚ) * multiplier request.urgency)

/-- A concrete request used to evaluate theorems on explicit inputs. -/
def sampleRequest (u : Urgency) : ProposalRequest :=
  { company_name := "Acme Corporation"
    industry := some "Manufacturing"
    pain_points := ["slow invoicing", "manual data entry"]
    budget_range := some "$50K-$100K"
    decision_makers := ["CFO", "VP Operations"]
    competitors := ["SAP", "Oracle"]
    urgency := u }

/-- A JSON value, the codomain of `json.loads` for the provider's reply.
Numbers are restricted to the integers that actually occur in this program. -/
inductive JValue where
  | jnull
  | jbool (b : Bool)
  | jnum (n : ℤ)
  | jstr (s : String)
  | jobj (fields : List (String × JValue))

/-- Key lookup in the field list of a JSON object (first match wins,
as in a Python dict built from parsed JSON). -/
def lookupKey : List (String × JValue) → String → Option JValue
  | [], _ => none
  | (k, v) :: rest, key => if k = key then some v else lookupKey rest key

/-- Indexing `v[key]` on a JSON value: a lookup that succeeds only on objects. -/
def JValue.get? : JValue → String → Option JValue
  | .jobj fields, key => lookupKey fields key
  | _, _ => none

/-- Python `dict.get(key, default)` on a parsed JSON value; `none` models the
`AttributeError` raised when the value is not a dict. -/
def JValue.pyGet : JValue → String → JValue → Option JValue
  | .jobj fields, key, dflt => some ((lookupKey fields key).getD dflt)
  | _, _, _ => none

/-- Python `", ".join(xs)`. -/
def joinComma : List String → String
  | [] => ""
  | [x] => x
  | x :: xs => x ++ ", " ++ joinComma xs

/-- The string `pain_points_str = ", ".join(request.pain_points) or "General efficiency
improvements"` — Python `or` takes the right operand when the join is the
empty string (falsy). -/
def painPointsStr (request : ProposalRequest) : String :=
  if joinComma request.pain_points = "" then "General efficiency improvements"
  else joinComma request.pain_points

/-- The string `competitors_str = ", ".join(request.competitors) or "Generic alternatives"`. -/
def competitorsStr (request : ProposalRequest) : String :=
  if joinComma request.competitors = "" then "Generic alternatives"
  else joinComma request.competitors

/-- Python `x or default` on an optional string field: `default` when the field
is absent or the empty string. -/
def orDefault (v : Option String) (default : String) : String :=
  match v with
  | some s => if s = "" then default else s
  | none => default

/-- The system prompt sent to the provider (a fixed string). -/
def system_prompt : String :=
  "You are an expert B2B sales proposal writer with 15 years of experience. " ++
  "Create compelling, customized sales proposals that win deals. " ++
  "Focus on: pain-point alignment, clear ROI and value proposition, " ++
  "competitive differentiation, and concrete next steps. " ++
  "Always return valid JSON."

/-- The user prompt interpolated from the request in `generate_proposal_content`. -/
def user_prompt (request : ProposalRequest) : String :=
  "\nCreate a sales proposal for:\nCompany: " ++ request.company_name ++
  "\nIndustry: " ++ orDefault request.industry "Unknown" ++
  "\nPain Points: " ++ painPointsStr request ++
  "\nBudget: " ++ orDefault request.budget_range "Not specified" ++
  "\nCompeting with: " ++ competitorsStr request ++
  "\nUrgency: " ++ request.urgency.render ++
  "\n\nReturn a JSON object with these keys:\n" ++
  "- executive_summary (string, 3 paragraphs)\n" ++
  "- solution_overview (string, 5 paragraphs)\n" ++
  "- roi_calculation (object with annual_savings and payback_period_months)\n" ++
  "- next_steps (string, 3 bullet points)\n\n" ++
  "Tone: Professional, consultative, ROI-focused.\n"

/-- The `executive_summary` string of the static fallback object. -/
def fallbackExecSummary (request : ProposalRequest) : String :=
  request.company_name ++ " faces significant challenges with " ++
  painPointsStr request ++
  ". Our solution delivers measurable ROI through automation and intelligence."

/-- The static fallback object returned when the provider call or the JSON
parse fails (the dict literal at the end of `generate_proposal_content`). -/
def fallbackContent (request : ProposalRequest) : JValue :=
  .jobj
    [("executive_summary", .jstr (fallbackExecSummary request)),
     ("solution_overview", .jstr
        ("Our platform provides enterprise-grade capabilities tailored to your " ++
         "specific needs, streamlining operations and accelerating revenue growth.")),
     ("roi_calculation", .jobj
        [("annual_savings", .jnum 500000),
         ("payback_period_months", .jnum 3)]),
     ("next_steps", .jstr "Schedule a technical deep-dive call within 3 business days.")]

/-- One behaviour of the external provider call together with `json.loads`:
either the call returned and its content parsed to a JSON value (a message
with `content = None` parses `"{}"`, i.e. `.parsed (.jobj [])`), or one of
the three exception branches was taken (`OpenAIError`, `json.JSONDecodeError`,
or any other exception). -/
inductive ProviderOutcome where
  | parsed (v : JValue)
  | openaiError
  | jsonDecodeError
  | otherError

/-- The outcome corresponds to an exception branch of the `try` block. -/
def ProviderOutcome.isFailure : ProviderOutcome → Bool
  | .parsed _ => false
  | .openaiError => true
  | .jsonDecodeError => true
  | .otherError => true

/-- Embedding of `generate_proposal_content` from `server.py`, with the behaviour of the
external call passed explicitly: the `try` block returns the parsed JSON on
success, and every exception branch falls through to the static fallback. -/
def generate_proposal_content (request : ProposalRequest) :
    ProviderOutcome → JValue
  | .parsed v => v
  | .openaiError => fallbackContent request
  | .jsonDecodeError => fallbackContent request
  | .otherError => fallbackContent request

/-- The returned value has the `GeneratedContent` shape: the four top-level
keys are present and `roi_calculation` is an object containing at least
`annual_savings` and `payback_period_months`. -/
def hasContentShape (v : JValue) : Bool :=
  (v.get? "executive_summary").isSome &&
  (v.get? "solution_overview").isSome &&
  (v.get? "next_steps").isSome &&
  (match v.get? "roi_calculation" with
   | some roi => (roi.get? "annual_savings").isSome &&
                 (roi.get? "payback_period_months").isSome
   | none => false)

/-- Proposition that `x` occurs in `s` as a contiguous substring. -/
def occursIn (x s : String) : Prop := ∃ a b, s = a ++ x ++ b

theorem occursIn_of_append (x a b s : String) (h : s = a ++ x ++ b) : occursIn x s :=
  ⟨a, b, h⟩

theorem occursIn_trans {x j s : String} (hx : occursIn x j) (hj : occursIn j s) :
    occursIn x s := by
  obtain ⟨c, d, hcd⟩ := hx
  obtain ⟨a, b, hab⟩ := hj
  exact ⟨a ++ c, d ++ b, by simp [hab, hcd, String.append_assoc]⟩

theorem joinComma_head (p : String) (xs : List String) :
    ∃ t, joinComma (p :: xs) = p ++ t := by
  cases xs with
  | nil => exact ⟨"", (String.append_empty p).symm⟩
  | cons y ys => exact ⟨", " ++ joinComma (y :: ys), by simp [joinComma, String.append_assoc]⟩

theorem occursIn_joinComma_head (p : String) (xs : List String) :
    occursIn p (joinComma (p :: xs)) := by
  obtain ⟨t, ht⟩ := joinComma_head p xs
  exact ⟨"", t, by simp [ht, String.empty_append]⟩

theorem occursIn_joinComma_second (p q : String) (xs : List String) :
    occursIn q (joinComma (p :: q :: xs)) := by
  obtain ⟨t, ht⟩ := joinComma_head q xs
  refine ⟨p ++ ", ", t, ?_⟩
  simp [joinComma, ht, String.append_assoc]

theorem occursIn_painPointsStr (request : ProposalRequest) :
    occursIn (joinComma request.pain_points) (painPointsStr request) := by
  unfold painPointsStr
  by_cases h : joinComma request.pain_points = ""
  · rw [if_pos h, h]
    exact ⟨"", "General efficiency improvements", by simp [String.empty_append]⟩
  · rw [if_neg h]
    exact ⟨"", "", by simp [String.empty_append, String.append_empty]⟩

theorem occursIn_fallbackExecSummary_painStr (request : ProposalRequest) :
    occursIn (painPointsStr request) (fallbackExecSummary request) :=
  ⟨request.company_name ++ " faces significant challenges with ",
   ". Our solution delivers measurable ROI through automation and intelligence.",
   by simp [fallbackExecSummary, String.append_assoc]⟩

/-- A raw request body for `POST /api/v1/proposals`, before pydantic
validation: every field may be absent (list fields default to `[]` via the
model's defaults, so only their contents vary). -/
structure RawRequest where
  company_name : Option String
  industry : Option String
  pain_points : List String
  budget_range : Option String
  decision_makers : List String
  competitors : List String
  urgency : Option String

/-- Parse the `urgency` field against `Literal["low", "medium", "high"]`,
defaulting to `"medium"` when absent. -/
def parseUrgency : Option String → Option Urgency
  | none => some .medium
  | some "low" => some .low
  | some "medium" => some .medium
  | some "high" => some .high
  | some _ => none

/-- The constraints of `ProposalRequest` other than the ones on
`company_name`: optional-string length bounds, the three list-length caps of
`limit_list_length`, and the urgency literal. -/
def otherFieldsOk (r : RawRequest) : Bool :=
  (match r.industry with | some s => decide (s.length ≤ 100) | none => true) &&
  (match r.budget_range with | some s => decide (s.length ≤ 100) | none => true) &&
  decide (r.pain_points.length ≤ 20) &&
  decide (r.decision_makers.length ≤ 20) &&
  decide (r.competitors.length ≤ 20) &&
  (parseUrgency r.urgency).isSome

/-- Pydantic validation of `ProposalRequest`: `company_name` is required with
`min_length=2, max_length=200` (character counts on the string as given),
`industry` and `budget_range` are optional with `max_length=100`, the three
list fields are capped at 20 items by `limit_list_length`, and `urgency`
must be one of the three literals (default `"medium"`). -/
def validateRequest (r : RawRequest) : Option ProposalRequest :=
  match r.company_name with
  | none => none
  | some cn =>
    if cn.length < 2 then none
    else if 200 < cn.length then none
    else if otherFieldsOk r then
      (parseUrgency r.urgency).map fun u =>
        { company_name := cn
          industry := r.industry
          pain_points := r.pain_points
          budget_range := r.budget_range
          decision_makers := r.decision_makers
          competitors := r.competitors
          urgency := u }
    else none

/-- A UTC instant as produced by `datetime.now(timezone.utc)`, holding the
fields the formatting calls read. -/
structure UTCInstant where
  year : ℕ
  month : ℕ
  day : ℕ
  hour : ℕ
  minute : ℕ
  second : ℕ
  microsecond : ℕ

/-- Zero-pad the decimal rendering of `n` on the left to width `w`. -/
def padZero (w : ℕ) (n : ℕ) : String :=
  let s := toString n
  String.mk (List.replicate (w - s.length) (Char.ofNat 48)) ++ s

/-- Rendering of `now.strftime` with the format `%Y%m%d-%H%M%S`. -/
def strftimeCompact (t : UTCInstant) : String :=
  padZero 4 t.year ++ padZero 2 t.month ++ padZero 2 t.day ++ "-" ++
  padZero 2 t.hour ++ padZero 2 t.minute ++ padZero 2 t.second

/-- Rendering of `now.isoformat()` for a UTC-aware datetime: microseconds are printed only
when nonzero, and the offset suffix is `+00:00`. -/
def isoFormat (t : UTCInstant) : String :=
  padZero 4 t.year ++ "-" ++ padZero 2 t.month ++ "-" ++ padZero 2 t.day ++ "T" ++
  padZero 2 t.hour ++ ":" ++ padZero 2 t.minute ++ ":" ++ padZero 2 t.second ++
  (if t.microsecond = 0 then "" else "." ++ padZero 6 t.microsecond) ++ "+00:00"

/-- The response payload built by `create_proposal` (`ProposalResponse`).
The narrative fields keep their parsed JSON values. -/
structure ProposalResponse where
  proposal_id : String
  executive_summary : JValue
  solution_overview : JValue
  pricing_tiers : List PricingTier
  roi_calculation : JValue
  next_steps : JValue
  pdf_url : String
  generated_at : String

/-- Outcome of one `POST /api/v1/proposals` call: a pydantic failure is a 422,
an exception reaching the global handler is a 500, otherwise a 201 with the
assembled response. -/
inductive PipelineResult where
  | validationFailure
  | serverError
  | success (resp : ProposalResponse)

/-- Embedding of `create_proposal` from `server.py`, with the current UTC instant, the
environment base price, and the provider behaviour passed explicitly.
Validation failure stops the pipeline (FastAPI returns 422 before the handler
body runs); otherwise the content and tiers are generated and the response is
assembled with `content.get(key, default)` reads — which raise (a 500 through
the global handler) if the parsed content is not a dict. -/
def create_proposal (now : UTCInstant) (basePrice : ℤ) (outcome : ProviderOutcome)
    (r : RawRequest) : PipelineResult :=
  match validateRequest r with
  | none => .validationFailure
  | some request =>
    let content := generate_proposal_content request outcome
    let pricing_tiers := generate_pricing_tiers basePrice request
    let proposal_id := "PROP-" ++ strftimeCompact now
    match content.pyGet "executive_summary" (.jstr ""),
          content.pyGet "solution_overview" (.jstr ""),
          content.pyGet "roi_calculation" (.jobj []),
          content.pyGet "next_steps" (.jstr "") with
    | some es, some so, some roi, some ns =>
      .success
        { proposal_id := proposal_id
          executive_summary := es
          solution_overview := so
          pricing_tiers := pricing_tiers
          roi_calculation := roi
          next_steps := ns
          pdf_url := "/proposals/" ++ proposal_id ++ ".pdf"
          generated_at := isoFormat now }
    | _, _, _, _ => .serverError

/-- A concrete raw request body (the payload of the repository's end-to-end
test scenario), used to evaluate theorems on explicit inputs. -/
def sampleRaw : RawRequest :=
  { company_name := some "Acme Corporation"
    industry := some "Manufacturing"
    pain_points := ["slow invoicing", "manual data entry"]
    budget_range := some "$50K-$100K"
    decision_makers := ["CFO", "VP Operations"]
    competitors := ["SAP", "Oracle"]
    urgency := some "high" }

/-- A concrete UTC instant used to evaluate the assembler on explicit inputs. -/
def sampleInstant : UTCInstant :=
  { year := 2026, month := 10, day := 12
    hour := 9, minute := 30, second := 5, microsecond := 0 }

/-- The response `create_proposal` assembles for `sampleRaw` at
`sampleInstant` with base price 10000 when the provider call fails. -/
def respC9 : ProposalResponse :=
  { proposal_id := "PROP-" ++ strftimeCompact sampleInstant
    executive_summary := .jstr (fallbackExecSummary (sampleRequest .high))
    solution_overview :=
      .jstr ("Our platform provides enterprise-grade capabilities tailored to your " ++
             "specific needs, streamlining operations and accelerating revenue growth.")
    pricing_tiers := generate_pricing_tiers 10000 (sampleRequest .high)
    roi_calculation := .jobj [("annual_savings", .jnum 500000),
                              ("payback_period_months", .jnum 3)]
    next_steps := .jstr "Schedule a technical deep-dive call within 3 business days."
    pdf_url := "/proposals/" ++ ("PROP-" ++ strftimeCompact sampleInstant) ++ ".pdf"
    generated_at := isoFormat sampleInstant }

theorem pyInt_eq_floor {q : ℚ} (h : 0 ≤ q) : pyInt q = (⌊q⌋ : ℚ) := by
  simp [pyInt, h]

theorem pyInt_intCast (z : ℤ) : pyInt (z : ℚ) = (z : ℚ) := by
  unfold pyInt
  split <;> simp

/-- The claims below are stated against these definitions. -/
theorem professionalPrice_eq (basePrice : ℤ) (request : ProposalRequest) :
    professionalPrice basePrice request =
      pyInt ((basePrice : ℚ) * multiplier request.urgency) := rfl

/-- C1: for every validated request and every failing behaviour of the external
provider call (API error, unparseable output, any other exception — including
the auth failure of missing credentials), `generate_proposal_content` returns
(it is total, never raising outward) the fixed fallback object, whose
`roi_calculation` is exactly the annual_savings 500000 / payback 3 object,
whose `solution_overview` is the fixed generic sentence and whose `next_steps`
is the fixed scheduling sentence; all error subtypes yield the same value. -/
theorem C1_generator_error_fallback (request : ProposalRequest)
    (o o' : ProviderOutcome) (h : o.isFailure = true) (h' : o'.isFailure = true) :
    generate_proposal_content request o = generate_proposal_content request o' ∧
    generate_proposal_content request o = fallbackContent request ∧
    (fallbackContent request).get? "roi_calculation" =
      some (.jobj [("annual_savings", .jnum 500000),
                   ("payback_period_months", .jnum 3)]) ∧
    (fallbackContent request).get? "solution_overview" =
      some (.jstr ("Our platform provides enterprise-grade capabilities tailored to your " ++
                   "specific needs, streamlining operations and accelerating revenue growth.")) ∧
    (fallbackContent request).get? "next_steps" =
      some (.jstr "Schedule a technical deep-dive call within 3 business days.") := by
  cases o <;> cases o' <;>
    simp_all [ProviderOutcome.isFailure, generate_proposal_content, fallbackContent,
      JValue.get?, lookupKey]

theorem C1_generator_error_fallback_witness :
    generate_proposal_content (sampleRequest .high) .openaiError =
      generate_proposal_content (sampleRequest .high) .jsonDecodeError ∧
    generate_proposal_content (sampleRequest .high) .openaiError =
      fallbackContent (sampleRequest .high) ∧
    (fallbackContent (sampleRequest .high)).get? "roi_calculation" =
      some (.jobj [("annual_savings", .jnum 500000),
                   ("payback_period_months", .jnum 3)]) ∧
    (fallbackContent (sampleRequest .high)).get? "solution_overview" =
      some (.jstr ("Our platform provides enterprise-grade capabilities tailored to your " ++
                   "specific needs, streamlining operations and accelerating revenue growth.")) ∧
    (fallbackContent (sampleRequest .high)).get? "next_steps" =
      some (.jstr "Schedule a technical deep-dive call within 3 business days.") :=
  C1_generator_error_fallback (sampleRequest .high) .openaiError .jsonDecodeError rfl rfl

/-- C2 counterexample: at base price 3 with urgency high, the code's
Professional price is `int(3 * 1.2) = 3`, while the claim's
`round(3 * 1.2) = 4`; so the Professional price is not `round(B * multiplier)`. -/
theorem C2_professional_not_round :
    (generate_pricing_tiers 3 (sampleRequest .high)).map PricingTier.price =
      [3/2, 3, 6] ∧
    pyRound0 ((3 : ℚ) * multiplier .high) = 4 ∧
    ((3 : ℚ) = 4 → False) := by
  refine ⟨?_, ?_, by norm_num⟩
  · norm_num [generate_pricing_tiers, pyInt, multiplier, sampleRequest, pyRound2, pyRound0]
  · norm_num [pyRound0, multiplier]

/-- C2 (amended): for every base price B and urgency u, the Professional price
equals `int(B * multiplier(u))` — truncation toward zero, not rounding to
nearest — with multiplier high → 1.2, medium → 1.0, low → 0.8; the Starter
price is `round(Professional * 0.5, 2)` and the Enterprise price is
`round(Professional * 2, 2)`. -/
theorem C2_pricing_formulas (basePrice : ℤ) (request : ProposalRequest) :
    multiplier .high = 6/5 ∧ multiplier .medium = 1 ∧ multiplier .low = 4/5 ∧
    (generate_pricing_tiers basePrice request).map PricingTier.price =
      [pyRound2 (pyInt ((basePrice : ℚ) * multiplier request.urgency) * (1/2)),
       pyInt ((basePrice : ℚ) * multiplier request.urgency),
       pyRound2 (pyInt ((basePrice : ℚ) * multiplier request.urgency) * 2)] := by
  refine ⟨rfl, rfl, rfl, ?_⟩
  simp [generate_pricing_tiers]

/-- C6 counterexample: when the provider call succeeds with the parseable but
empty JSON object (e.g. a reply whose message content is `None`, parsed as
`"{}"`), `generate_proposal_content` returns that empty object, which lacks
every `GeneratedContent` key — so not every returned value has the shape. -/
theorem C6_external_shape_cex :
    hasContentShape
      (generate_proposal_content (sampleRequest .medium) (.parsed (.jobj []))) = false := by
  decide

/-- C6 (amended): every result produced via the fallback path has the
`GeneratedContent` shape (all four keys, with `roi_calculation` containing
`annual_savings` and `payback_period_months`); a result from the external path
is the provider's parsed object passed through unchanged, so its shape is
whatever the provider supplied. -/
theorem C6_shape (request : ProposalRequest) (o : ProviderOutcome) :
    (o.isFailure = true → hasContentShape (generate_proposal_content request o) = true) ∧
    (∀ v, o = .parsed v → generate_proposal_content request o = v) := by
  constructor
  · intro h
    cases o <;> simp_all [ProviderOutcome.isFailure] <;>
      simp [generate_proposal_content, hasContentShape, fallbackContent,
        JValue.get?, lookupKey]
  · rintro v rfl
    rfl

theorem C6_shape_witness :
    hasContentShape
      (generate_proposal_content (sampleRequest .low) .otherError) = true :=
  (C6_shape (sampleRequest .low) .otherError).1 rfl

/-- C7: the fallback `executive_summary` contains the company name; when the
pain-point list is empty it contains the phrase "General efficiency
improvements", and it contains the first and (when present) second pain
points as substrings. -/
theorem C7_fallback_exec_summary (request : ProposalRequest) :
    (fallbackContent request).get? "executive_summary" =
      some (.jstr (fallbackExecSummary request)) ∧
    occursIn request.company_name (fallbackExecSummary request) ∧
    (request.pain_points = [] →
      occursIn "General efficiency improvements" (fallbackExecSummary request)) ∧
    (∀ p, request.pain_points.head? = some p →
      occursIn p (fallbackExecSummary request)) ∧
    (∀ p, request.pain_points[1]? = some p →
      occursIn p (fallbackExecSummary request)) := by
  have hpain : occursIn (painPointsStr request) (fallbackExecSummary request) :=
    occursIn_fallbackExecSummary_painStr request
  refine ⟨by simp [fallbackContent, JValue.get?, lookupKey], ?_, ?_, ?_, ?_⟩
  · exact ⟨"", " faces significant challenges with " ++ painPointsStr request ++
      ". Our solution delivers measurable ROI through automation and intelligence.",
      by simp [fallbackExecSummary, String.empty_append, String.append_assoc]⟩
  · intro hnil
    refine occursIn_trans ?_ hpain
    rw [painPointsStr, hnil]
    exact ⟨"", "", by simp [joinComma, String.empty_append, String.append_empty]⟩
  · intro p hp
    refine occursIn_trans (occursIn_trans ?_ (occursIn_painPointsStr request)) hpain
    cases hps : request.pain_points with
    | nil => simp [hps] at hp
    | cons q qs =>
      rw [hps] at hp
      simp only [List.head?] at hp
      cases hp
      exact occursIn_joinComma_head p qs
  · intro p hp
    refine occursIn_trans (occursIn_trans ?_ (occursIn_painPointsStr request)) hpain
    cases hps : request.pain_points with
    | nil => simp [hps] at hp
    | cons q qs =>
      cases qs with
      | nil => simp [hps] at hp
      | cons q2 qs2 =>
        rw [hps] at hp
        simp at hp
        cases hp
        exact occursIn_joinComma_second q p qs2

theorem C7_fallback_exec_summary_witness :
    occursIn "slow invoicing" (fallbackExecSummary (sampleRequest .high)) ∧
    occursIn "manual data entry" (fallbackExecSummary (sampleRequest .high)) ∧
    occursIn "Acme Corporation" (fallbackExecSummary (sampleRequest .high)) :=
  ⟨(C7_fallback_exec_summary (sampleRequest .high)).2.2.2.1 "slow invoicing" rfl,
   (C7_fallback_exec_summary (sampleRequest .high)).2.2.2.2 "manual data entry" rfl,
   (C7_fallback_exec_summary (sampleRequest .high)).2.1⟩

/-- C8: for every base price and request the pricing calculator returns
exactly 3 tiers, in the order Starter, Professional, Enterprise, and the
recommended flags are false, true, false — so exactly one tier (Professional)
is recommended. -/
theorem C8_three_tiers (basePrice : ℤ) (request : ProposalRequest) :
    (generate_pricing_tiers basePrice request).length = 3 ∧
    (generate_pricing_tiers basePrice request).map PricingTier.name =
      ["Starter", "Professional", "Enterprise"] ∧
    (generate_pricing_tiers basePrice request).map PricingTier.recommended =
      [false, true, false] ∧
    ((generate_pricing_tiers basePrice request).filter
        (fun t => t.recommended)).map PricingTier.name = ["Professional"] := by
  refine ⟨rfl, ?_, ?_, ?_⟩ <;> simp [generate_pricing_tiers]

/-- C10: two validated requests that agree on every field except
`decision_makers` produce the same pricing tiers, the same user prompt to the
provider, the same fallback content, and the same generator output for any
provider behaviour: `decision_makers` does not influence any output. -/
theorem C10_decision_makers_noninterference (basePrice : ℤ)
    (r1 r2 : ProposalRequest)
    (hc : r1.company_name = r2.company_name) (hi : r1.industry = r2.industry)
    (hp : r1.pain_points = r2.pain_points) (hb : r1.budget_range = r2.budget_range)
    (hk : r1.competitors = r2.competitors) (hu : r1.urgency = r2.urgency) :
    generate_pricing_tiers basePrice r1 = generate_pricing_tiers basePrice r2 ∧
    user_prompt r1 = user_prompt r2 ∧
    fallbackContent r1 = fallbackContent r2 ∧
    ∀ o, generate_proposal_content r1 o = generate_proposal_content r2 o := by
  obtain ⟨c1, i1, p1, b1, d1, k1, u1⟩ := r1
  obtain ⟨c2, i2, p2, b2, d2, k2, u2⟩ := r2
  simp only at hc hi hp hb hk hu
  subst hc hi hp hb hk hu
  refine ⟨rfl, rfl, rfl, fun o => ?_⟩
  cases o <;> rfl

theorem C10_decision_makers_noninterference_witness :
    generate_pricing_tiers 10000 (sampleRequest .high) =
      generate_pricing_tiers 10000
        { sampleRequest .high with decision_makers := [] } ∧
    user_prompt (sampleRequest .high) =
      user_prompt { sampleRequest .high with decision_makers := [] } ∧
    fallbackContent (sampleRequest .high) =
      fallbackContent { sampleRequest .high with decision_makers := [] } ∧
    ∀ o, generate_proposal_content (sampleRequest .high) o =
      generate_proposal_content { sampleRequest .high with decision_makers := [] } o :=
  C10_decision_makers_noninterference 10000 (sampleRequest .high)
    { sampleRequest .high with decision_makers := [] } rfl rfl rfl rfl rfl rfl

/-- C3 counterexample: at base price 1 (which is > 0) the Professional price
for urgency high equals the one for urgency medium (`int(1 * 1.2) = 1 =
int(1 * 1.0)`), so the claimed strict ordering high > medium fails; the
Professional tier of the returned list is its second element. -/
theorem C3_high_not_gt_medium_cex :
    (0 : ℤ) < 1 ∧
    professionalPrice 1 (sampleRequest .high) = 1 ∧
    professionalPrice 1 (sampleRequest .medium) = 1 ∧
    ((generate_pricing_tiers 1 (sampleRequest .high)).map PricingTier.price)[1]? =
      some (professionalPrice 1 (sampleRequest .high)) ∧
    ((generate_pricing_tiers 1 (sampleRequest .medium)).map PricingTier.price)[1]? =
      some (professionalPrice 1 (sampleRequest .medium)) ∧
    ¬ professionalPrice 1 (sampleRequest .high) >
        professionalPrice 1 (sampleRequest .medium) := by
  refine ⟨by norm_num, ?_, ?_, ?_, ?_, ?_⟩
  · norm_num [professionalPrice, pyInt, multiplier, sampleRequest]
  · norm_num [professionalPrice, pyInt, multiplier, sampleRequest]
  · simp [generate_pricing_tiers, professionalPrice]
  · simp [generate_pricing_tiers, professionalPrice]
  · norm_num [professionalPrice, pyInt, multiplier, sampleRequest]

/-- C3 (amended): for every base price B ≥ 5 and any request, changing only
the urgency orders the Professional price strictly: high > medium > low.
(For 0 < B < 5 the integer truncation can collapse high and medium, as the
counterexample at B = 1 shows; the shipped default base price is 10000.) -/
theorem C3_urgency_monotonicity (B : ℤ) (r : ProposalRequest) (hB : 5 ≤ B) :
    professionalPrice B { r with urgency := .high } >
      professionalPrice B { r with urgency := .medium } ∧
    professionalPrice B { r with urgency := .medium } >
      professionalPrice B { r with urgency := .low } ∧
    ∀ u, ((generate_pricing_tiers B { r with urgency := u }).map
        PricingTier.price)[1]? = some (professionalPrice B { r with urgency := u }) := by
  have hBQ : (5 : ℚ) ≤ (B : ℚ) := by exact_mod_cast hB
  have hB0 : (0 : ℚ) ≤ (B : ℚ) := by linarith
  have hmed : professionalPrice B { r with urgency := .medium } = (B : ℚ) := by
    simp only [professionalPrice, multiplier, mul_one]
    exact pyInt_intCast B
  refine ⟨?_, ?_, ?_⟩
  · have hnn : (0 : ℚ) ≤ (B : ℚ) * (6/5) := by linarith
    have hfl : professionalPrice B { r with urgency := .high } =
        (⌊(B : ℚ) * (6/5)⌋ : ℚ) := by
      simp only [professionalPrice, multiplier]
      exact pyInt_eq_floor hnn
    have hge : B + 1 ≤ ⌊(B : ℚ) * (6/5)⌋ := by
      apply Int.le_floor.mpr
      push_cast
      linarith
    rw [hfl, hmed]
    have : ((B : ℚ) + 1) ≤ (⌊(B : ℚ) * (6/5)⌋ : ℚ) := by exact_mod_cast hge
    linarith
  · have hnn : (0 : ℚ) ≤ (B : ℚ) * (4/5) := by linarith
    have hfl : professionalPrice B { r with urgency := .low } =
        (⌊(B : ℚ) * (4/5)⌋ : ℚ) := by
      simp only [professionalPrice, multiplier]
      exact pyInt_eq_floor hnn
    have hle : (⌊(B : ℚ) * (4/5)⌋ : ℚ) ≤ (B : ℚ) * (4/5) := Int.floor_le _
    rw [hfl, hmed]
    linarith
  · intro u
    simp [generate_pricing_tiers, professionalPrice]

theorem C3_urgency_monotonicity_witness :
    (professionalPrice 10000 { sampleRequest .medium with urgency := .high } >
      professionalPrice 10000 { sampleRequest .medium with urgency := .medium } ∧
    professionalPrice 10000 { sampleRequest .medium with urgency := .medium } >
      professionalPrice 10000 { sampleRequest .medium with urgency := .low } ∧
    ∀ u, ((generate_pricing_tiers 10000 { sampleRequest .medium with urgency := u }).map
        PricingTier.price)[1]? =
      some (professionalPrice 10000 { sampleRequest .medium with urgency := u })) :=
  C3_urgency_monotonicity 10000 (sampleRequest .medium) (by norm_num)

/-- Bounds extracted from a successful `otherFieldsOk` check. -/
theorem otherFieldsOk_caps {r : RawRequest} (h : otherFieldsOk r = true) :
    r.pain_points.length ≤ 20 ∧ r.decision_makers.length ≤ 20 ∧
    r.competitors.length ≤ 20 ∧ (parseUrgency r.urgency).isSome = true := by
  simp only [otherFieldsOk, Bool.and_eq_true, decide_eq_true_eq] at h
  exact ⟨h.1.1.1.2, h.1.1.2, h.1.2, h.2⟩

/-- Rejection happens whatever the other constraints say once `otherFieldsOk`
fails. -/
theorem validateRequest_none_of_otherFieldsOk_false {r : RawRequest}
    (h : otherFieldsOk r = false) : validateRequest r = none := by
  unfold validateRequest
  cases r.company_name with
  | none => rfl
  | some cn => simp [h]

/-- Follows the spec's words (not the source, which never trims): the length
of a string after removing leading and trailing whitespace, the "trimmed
length" the claim's acceptance condition is stated in. -/
def specTrimmedLength (s : String) : ℕ :=
  ((s.data.dropWhile Char.isWhitespace).reverse.dropWhile Char.isWhitespace).length

/-- C4 counterexample: the request whose company name is `" A"` (a space and a
letter: raw length 2, trimmed length 1) passes validation, although the claim
says a company name of trimmed length below 2 is rejected; pydantic's
`min_length` counts the string as given, untrimmed. -/
theorem C4_untrimmed_cex :
    (validateRequest { sampleRaw with company_name := some " A" }).isSome = true ∧
    specTrimmedLength " A" = 1 := by
  constructor
  · decide
  · decide

/-- C4 (amended): validation of `company_name` accepts exactly the strings
whose raw (untrimmed) length is between 2 and 200: a missing company name or
one of raw length below 2 or above 200 is rejected, and any rejected request
is answered with a validation failure before content generation or pricing
runs. -/
theorem C4_company_name_validation (r : RawRequest) :
    (r.company_name = none → validateRequest r = none) ∧
    (∀ s, r.company_name = some s → s.length < 2 → validateRequest r = none) ∧
    (∀ s, r.company_name = some s → 200 < s.length → validateRequest r = none) ∧
    (∀ s, r.company_name = some s → 2 ≤ s.length → s.length ≤ 200 →
      otherFieldsOk r = true → (validateRequest r).isSome = true) ∧
    (validateRequest r = none → ∀ now basePrice o,
      create_proposal now basePrice o r = .validationFailure) := by
  refine ⟨?_, ?_, ?_, ?_, ?_⟩
  · intro h
    simp [validateRequest, h]
  · intro s hs hlen
    simp [validateRequest, hs, hlen]
  · intro s hs hlen
    have h1 : ¬ s.length < 2 := by omega
    simp [validateRequest, hs, h1, hlen]
  · intro s hs h2 h200 hok
    have h1 : ¬ s.length < 2 := by omega
    have h3 : ¬ 200 < s.length := by omega
    simp only [validateRequest, hs, h1, h3, hok, if_false, if_true]
    cases hu : parseUrgency r.urgency with
    | none =>
      have := (otherFieldsOk_caps hok).2.2.2
      rw [hu] at this
      cases this
    | some u => simp
  · intro h now basePrice o
    simp [create_proposal, h]

theorem C4_company_name_validation_witness :
    validateRequest { sampleRaw with company_name := none } = none ∧
    validateRequest { sampleRaw with company_name := some "A" } = none ∧
    (validateRequest sampleRaw).isSome = true ∧
    create_proposal sampleInstant 10000 .openaiError
      { sampleRaw with company_name := some "A" } = .validationFailure :=
  ⟨(C4_company_name_validation { sampleRaw with company_name := none }).1 rfl,
   (C4_company_name_validation { sampleRaw with company_name := some "A" }).2.1
     "A" rfl (by decide),
   (C4_company_name_validation sampleRaw).2.2.2.1 "Acme Corporation" rfl
     (by decide) (by decide) (by decide),
   (C4_company_name_validation { sampleRaw with company_name := some "A" }).2.2.2.2
     ((C4_company_name_validation { sampleRaw with company_name := some "A" }).2.1
       "A" rfl (by decide)) sampleInstant 10000 .openaiError⟩

/-- C5: a request in which any of the three list fields exceeds 20 entries
fails validation and is answered with a validation failure before any further
processing; when all three lists have at most 20 entries the list constraint
passes (the request is accepted whenever the remaining fields are valid). -/
theorem C5_list_caps (r : RawRequest) :
    (20 < r.pain_points.length → validateRequest r = none) ∧
    (20 < r.decision_makers.length → validateRequest r = none) ∧
    (20 < r.competitors.length → validateRequest r = none) ∧
    (validateRequest r = none → ∀ now basePrice o,
      create_proposal now basePrice o r = .validationFailure) ∧
    (∀ s, r.company_name = some s → 2 ≤ s.length → s.length ≤ 200 →
      otherFieldsOk r = true → (validateRequest r).isSome = true) := by
  have reject : otherFieldsOk r = false → validateRequest r = none :=
    validateRequest_none_of_otherFieldsOk_false
  refine ⟨?_, ?_, ?_, ?_, ?_⟩
  · intro h
    apply reject
    cases hok : otherFieldsOk r with
    | false => rfl
    | true => exact absurd (otherFieldsOk_caps hok).1 (by omega)
  · intro h
    apply reject
    cases hok : otherFieldsOk r with
    | false => rfl
    | true => exact absurd (otherFieldsOk_caps hok).2.1 (by omega)
  · intro h
    apply reject
    cases hok : otherFieldsOk r with
    | false => rfl
    | true => exact absurd (otherFieldsOk_caps hok).2.2.1 (by omega)
  · intro h now basePrice o
    simp [create_proposal, h]
  · intro s hs h2 h200 hok
    have h1 : ¬ s.length < 2 := by omega
    have h3 : ¬ 200 < s.length := by omega
    simp only [validateRequest, hs, h1, h3, hok, if_false, if_true]
    cases hu : parseUrgency r.urgency with
    | none =>
      have := (otherFieldsOk_caps hok).2.2.2
      rw [hu] at this
      cases this
    | some u => simp

theorem C5_list_caps_witness :
    validateRequest { sampleRaw with pain_points := List.replicate 21 "p" } = none ∧
    create_proposal sampleInstant 10000 .openaiError
      { sampleRaw with pain_points := List.replicate 21 "p" } = .validationFailure ∧
    (validateRequest sampleRaw).isSome = true :=
  ⟨(C5_list_caps { sampleRaw with pain_points := List.replicate 21 "p" }).1 (by decide),
   (C5_list_caps { sampleRaw with pain_points := List.replicate 21 "p" }).2.2.2.1
     ((C5_list_caps { sampleRaw with pain_points := List.replicate 21 "p" }).1 (by decide))
     sampleInstant 10000 .openaiError,
   (C5_list_caps sampleRaw).2.2.2.2 "Acme Corporation" rfl (by decide) (by decide)
     (by decide)⟩

/-- C9: every successful response carries a proposal id equal to `PROP-`
followed by the current UTC instant rendered as `YYYYMMDD-HHMMSS`, a pdf_url
that embeds (and hence contains as a substring) the proposal id, and a
generated_at equal to the same instant rendered in ISO-8601 with UTC offset. -/
theorem C9_response_assembly (now : UTCInstant) (basePrice : ℤ)
    (o : ProviderOutcome) (r : RawRequest) (resp : ProposalResponse)
    (h : create_proposal now basePrice o r = .success resp) :
    resp.proposal_id = "PROP-" ++ strftimeCompact now ∧
    resp.pdf_url = "/proposals/" ++ resp.proposal_id ++ ".pdf" ∧
    occursIn resp.proposal_id resp.pdf_url ∧
    resp.generated_at = isoFormat now := by
  simp only [create_proposal] at h
  cases hv : validateRequest r with
  | none =>
    rw [hv] at h
    cases h
  | some req =>
    rw [hv] at h
    simp only [] at h
    cases hg : generate_proposal_content req o with
    | jobj fields =>
      rw [hg] at h
      simp only [JValue.pyGet] at h
      cases h
      exact ⟨rfl, rfl, ⟨"/proposals/", ".pdf", rfl⟩, rfl⟩
    | jnull => rw [hg] at h; simp only [JValue.pyGet] at h; cases h
    | jbool b => rw [hg] at h; simp only [JValue.pyGet] at h; cases h
    | jnum n => rw [hg] at h; simp only [JValue.pyGet] at h; cases h
    | jstr s => rw [hg] at h; simp only [JValue.pyGet] at h; cases h

theorem C9_response_assembly_witness :
    respC9.proposal_id = "PROP-" ++ strftimeCompact sampleInstant ∧
    respC9.pdf_url = "/proposals/" ++ respC9.proposal_id ++ ".pdf" ∧
    occursIn respC9.proposal_id respC9.pdf_url ∧
    respC9.generated_at = isoFormat sampleInstant :=
  C9_response_assembly sampleInstant 10000 .openaiError sampleRaw respC9 rfl

end DealDesk
